import Mathlib

/-!
Shallow embedding of the Wayfinders pedestrian navigation core:
the `useNavigation` hook (src/frontend/wayfinders/app/page.tsx) and the
`NavigationService` (src/frontend/wayfinders/lib/navigation-service.ts).

The engine's control flow is embedded generically over a linear ordered
field `α` (the production instantiation is `ℝ` with the haversine
`calculateDistance` below; witnesses instantiate `α := ℚ` so that the
definitions evaluate). Side effects (speech, tracker start/stop and the
service's `hasSpokenCurrentStep` flag) are made explicit in the output
structures.
-/

namespace Wayfinders

/-- `RouteStep` from types/route.ts: `{instruction, name, distance, duration,
type, way_points}`; `way_points` is a `[startIndex, endIndex]` pair into the
route geometry. -/
structure RouteStep (α : Type) where
  instruction : String
  name : String
  distance : α
  duration : α
  typ : Int
  way_points : Nat × Nat
deriving DecidableEq

/-- `RouteGeometry`: a list of `[lng, lat]` coordinate pairs. -/
structure RouteGeometry (α : Type) where
  coordinates : List (α × α)
deriving DecidableEq

/-- `RouteSegment` from types/route.ts (summary fields plus the step list). -/
structure RouteSegment (α : Type) where
  distance : α
  duration : α
  steps : List (RouteStep α)
deriving DecidableEq

/-- `RouteProperties.segments` (the only property field the engine reads). -/
structure RouteProperties (α : Type) where
  segments : List (RouteSegment α)
deriving DecidableEq

/-- `Route` from types/route.ts: geometry plus properties. -/
structure Route (α : Type) where
  geometry : RouteGeometry α
  properties : RouteProperties α
deriving DecidableEq

/-- `RouteData.route` (the only `RouteData` field `startNavigation` reads). -/
structure RouteData (α : Type) where
  route : Route α
deriving DecidableEq

/-- `NavigationState` from page.tsx.  `distanceToNextWaypoint` is stored
rounded (`Math.round`), hence `Option ℤ`. -/
structure NavigationState (α : Type) where
  isNavigating : Bool
  currentStepIndex : Nat
  currentStep : Option (RouteStep α)
  nextStep : Option (RouteStep α)
  totalSteps : Nat
  distanceToNextWaypoint : Option ℤ
  userPosition : Option (α × α)
  accuracy : Option α
  error : Option String
  isSpeaking : Bool
deriving DecidableEq

/-- `initialState` from page.tsx. -/
def initialState (α : Type) : NavigationState α :=
  ⟨false, 0, none, none, 0, none, none, none, none, false⟩

/-- `NavigationService.ARRIVAL_DISTANCE_METERS = 10`. -/
def ARRIVAL_DISTANCE_METERS (α : Type) [LinearOrderedField α] : α := 10

/-- `NavigationService.TRIGGER_DISTANCE_METERS = 30`. -/
def TRIGGER_DISTANCE_METERS (α : Type) [LinearOrderedField α] : α := 30

/-- JavaScript `Math.round`: floor of `x + 1/2` (ties toward positive
infinity). -/
def jsRound {α : Type} [LinearOrderedField α] [FloorRing α] (x : α) : ℤ :=
  Int.floor (x + 1 / 2)

/-- `getWaypointCoordinates` from page.tsx: resolve the end waypoint of
`steps[stepIndex]` against the route geometry and swap `[lng, lat]` to
`(lat, lng)`; `none` when the route is absent, the step index is out of
range, or the waypoint index is out of range. -/
def getWaypointCoordinates {α : Type} (route : Option (Route α))
    (steps : List (RouteStep α)) (stepIndex : Nat) : Option (α × α) :=
  match route with
  | none => none
  | some r =>
    match steps[stepIndex]? with
    | none => none
    | some step =>
      match r.geometry.coordinates[step.way_points.2]? with
      | none => none
      | some coord => some (coord.2, coord.1)

/-- Observable outcome of one engine callback: the next `NavigationState`,
the service's `hasSpokenCurrentStep` flag, the `speak` calls made (in
order), and whether `stopTracking` was called. -/
structure FixOutput (α : Type) where
  state : NavigationState α
  hasSpoken : Bool
  announcements : List String
  trackerStopped : Bool
deriving DecidableEq

/-- Tail of `handlePositionUpdate` (page.tsx): the shared
speak-and-rebuild-state code after `newStepIndex` and `shouldSpeak` are
decided.  `flag` is the service's spoken flag at that point (already reset
on the advance path); speaking marks it. -/
def finishFix {α : Type} [LinearOrderedField α] [FloorRing α]
    (d : α → α → α → α → α) (route : Option (Route α))
    (steps : List (RouteStep α)) (lat lng accuracy : α)
    (prev : NavigationState α) (distance : α)
    (newStepIndex : Nat) (flag : Bool) (shouldSpeak : Bool) : FixOutput α :=
  let spoken : Bool × List String :=
    match steps[newStepIndex]? with
    | some s => if shouldSpeak then (true, [s.instruction]) else (flag, [])
    | none => (flag, [])
  let newDistance : α :=
    match getWaypointCoordinates route steps newStepIndex with
    | some w2 => d lat lng w2.1 w2.2
    | none => distance
  ⟨{ prev with
      userPosition := some (lat, lng)
      accuracy := some accuracy
      currentStepIndex := newStepIndex
      currentStep := steps[newStepIndex]?
      nextStep := steps[newStepIndex + 1]?
      distanceToNextWaypoint := some (jsRound newDistance) },
   spoken.1, spoken.2, false⟩

/-- `handlePositionUpdate` from page.tsx, with the distance function `d`
(production: `NavigationService.calculateDistance`) passed explicitly and
`hasSpokenFlag` the service's current spoken flag. -/
def handlePositionUpdate {α : Type} [LinearOrderedField α] [FloorRing α]
    (d : α → α → α → α → α) (route : Option (Route α))
    (steps : List (RouteStep α)) (lat lng accuracy : α)
    (prev : NavigationState α) (hasSpokenFlag : Bool) : FixOutput α :=
  if prev.isNavigating = false then
    ⟨prev, hasSpokenFlag, [], false⟩
  else
    match getWaypointCoordinates route steps prev.currentStepIndex with
    | none =>
      ⟨{ prev with userPosition := some (lat, lng), accuracy := some accuracy },
       hasSpokenFlag, [], false⟩
    | some w =>
      let distance := d lat lng w.1 w.2
      if distance < ARRIVAL_DISTANCE_METERS α then
        if prev.currentStepIndex < steps.length - 1 then
          finishFix d route steps lat lng accuracy prev distance
            (prev.currentStepIndex + 1) false true
        else
          ⟨initialState α, hasSpokenFlag,
           ["You have arrived at your destination"], true⟩
      else if distance < TRIGGER_DISTANCE_METERS α ∧ hasSpokenFlag = false then
        finishFix d route steps lat lng accuracy prev distance
          prev.currentStepIndex hasSpokenFlag true
      else
        finishFix d route steps lat lng accuracy prev distance
          prev.currentStepIndex hasSpokenFlag false

/-- `skipToNextStep` from page.tsx.  The guard
`prev.currentStepIndex >= steps.length - 1` is a no-op return (for an empty
step list JavaScript compares against `-1`, which is likewise always a
no-op, matching ℕ truncated subtraction). -/
def skipToNextStep {α : Type} (steps : List (RouteStep α))
    (prev : NavigationState α) (flag : Bool) : FixOutput α :=
  if steps.length - 1 ≤ prev.currentStepIndex then
    ⟨prev, flag, [], false⟩
  else
    let newIndex := prev.currentStepIndex + 1
    let spoken : Bool × List String :=
      match steps[newIndex]? with
      | some s => (true, [s.instruction])
      | none => (false, [])
    ⟨{ prev with
        currentStepIndex := newIndex
        currentStep := steps[newIndex]?
        nextStep := steps[newIndex + 1]? },
     spoken.1, spoken.2, false⟩

/-- The `errorMessages` record in `handleError` (page.tsx): codes 1, 2, 3
have mapped messages; anything else misses the record. -/
def errorMessages (code : Nat) : Option String :=
  if code = 1 then some "Location permission denied. Please enable location access."
  else if code = 2 then some "Location unavailable. Please check your device settings."
  else if code = 3 then some "Location request timed out. Please try again."
  else none

/-- `handleError` from page.tsx: set the mapped message (falling back to
"Unknown location error"), force `isNavigating = false`, stop tracking.
All other state fields are spread from `prev`. -/
def handleError {α : Type} (code : Nat) (prev : NavigationState α)
    (flag : Bool) : FixOutput α :=
  ⟨{ prev with
      error := some ((errorMessages code).getD "Unknown location error")
      isNavigating := false },
   flag, [], true⟩

/-- Observable outcome of `startNavigation`: new state, new route/steps
refs, spoken flag, `speak` calls, and whether tracking was started. -/
structure StartOutput (α : Type) where
  state : NavigationState α
  routeRef : Option (Route α)
  stepsRef : List (RouteStep α)
  hasSpoken : Bool
  announcements : List String
  trackingStarted : Bool
deriving DecidableEq

/-- The step-list extraction in `startNavigation`:
`route?.properties?.segments?.[0]?.steps || []`. -/
def routeSteps {α : Type} (routeData : RouteData α) : List (RouteStep α) :=
  ((routeData.route.properties.segments[0]?).map RouteSegment.steps).getD []

/-- `startNavigation` from page.tsx. -/
def startNavigation {α : Type} (routeData : RouteData α)
    (prev : NavigationState α) (flag : Bool)
    (routeRef : Option (Route α)) (stepsRef : List (RouteStep α)) :
    StartOutput α :=
  let steps := routeSteps routeData
  if steps.length = 0 then
    ⟨{ prev with error := some "No navigation steps available" },
     routeRef, stepsRef, flag, [], false⟩
  else
    let spoken : Bool × List String :=
      match steps[0]? with
      | some s => (true, ["Starting navigation. " ++ s.instruction])
      | none => (false, [])
    ⟨⟨true, 0, steps[0]?, steps[1]?, steps.length, none, none, none, none, false⟩,
     some routeData.route, steps, spoken.1, spoken.2, true⟩

/-- Observable outcome of `stopNavigation`. -/
structure StopOutput (α : Type) where
  state : NavigationState α
  routeRef : Option (Route α)
  stepsRef : List (RouteStep α)
  trackerStopped : Bool
deriving DecidableEq

/-- `stopNavigation` from page.tsx: stop tracking, clear both refs, reset
state to `initialState`. -/
def stopNavigation (α : Type) : StopOutput α :=
  ⟨initialState α, none, [], true⟩

/-- `GeolocationPositionError.PERMISSION_DENIED` (navigation-service.ts). -/
def PERMISSION_DENIED : Nat := 1

/-- `GeolocationPositionError.POSITION_UNAVAILABLE` (navigation-service.ts). -/
def POSITION_UNAVAILABLE : Nat := 2

/-- `GeolocationPositionError.TIMEOUT` (navigation-service.ts). -/
def TIMEOUT : Nat := 3

/-- Observable outcome of `NavigationService.startTracking`: the
`(code, message)` pairs passed to `onError` and whether `watchPosition`
was called. -/
structure TrackOutput where
  errorCalls : List (Nat × String)
  watchStarted : Bool
deriving DecidableEq

/-- `NavigationService.startTracking` (navigation-service.ts), abstracted
over whether the platform has a geolocation capability: without it,
`onError` is invoked synchronously with the literal error object
`{code: 2, message: "Geolocation not supported", ...}` and nothing else
happens; with it, `watchPosition` is subscribed. -/
def startTracking (hasGeolocation : Bool) : TrackOutput :=
  if hasGeolocation = false then
    ⟨[(2, "Geolocation not supported")], false⟩
  else
    ⟨[], true⟩

/-- An externally-triggered engine callback: a position fix or a skip
button press. -/
inductive NavOp (α : Type) where
  | fix (lat lng accuracy : α)
  | skip
deriving DecidableEq

/-- Run one callback against the pair (navigation state, spoken flag). -/
def runOp {α : Type} [LinearOrderedField α] [FloorRing α]
    (d : α → α → α → α → α) (route : Option (Route α))
    (steps : List (RouteStep α)) (s : NavigationState α × Bool)
    (op : NavOp α) : NavigationState α × Bool :=
  match op with
  | NavOp.fix lat lng accuracy =>
    let o := handlePositionUpdate d route steps lat lng accuracy s.1 s.2
    (o.state, o.hasSpoken)
  | NavOp.skip =>
    let o := skipToNextStep steps s.1 s.2
    (o.state, o.hasSpoken)

/-- Run a sequence of callbacks in delivery order. -/
def runOps {α : Type} [LinearOrderedField α] [FloorRing α]
    (d : α → α → α → α → α) (route : Option (Route α))
    (steps : List (RouteStep α)) (s : NavigationState α × Bool)
    (ops : List (NavOp α)) : NavigationState α × Bool :=
  ops.foldl (runOp d route steps) s

/-! Real-valued geometry (navigation-service.ts). -/

/-- `NavigationService.toRad`: degrees to radians. -/
noncomputable def toRad (deg : ℝ) : ℝ := deg * (Real.pi / 180)

/-- JavaScript `Math.atan2 y x` on the reals. -/
noncomputable def atan2 (y x : ℝ) : ℝ :=
  if 0 < x then Real.arctan (y / x)
  else if x < 0 then
    (if 0 ≤ y then Real.arctan (y / x) + Real.pi else Real.arctan (y / x) - Real.pi)
  else if 0 < y then Real.pi / 2
  else if y < 0 then -(Real.pi / 2)
  else 0

/-- The local `a` of `NavigationService.calculateDistance`: the haversine
term `sin²(dLat/2) + cos(lat1)·cos(lat2)·sin²(dLng/2)`. -/
noncomputable def haversineTerm (lat1 lng1 lat2 lng2 : ℝ) : ℝ :=
  Real.sin (toRad (lat2 - lat1) / 2) * Real.sin (toRad (lat2 - lat1) / 2) +
    Real.cos (toRad lat1) * Real.cos (toRad lat2) *
      Real.sin (toRad (lng2 - lng1) / 2) * Real.sin (toRad (lng2 - lng1) / 2)

/-- `NavigationService.calculateDistance`: haversine great-circle distance
with Earth radius 6,371,000 m; `c = 2·atan2(√a, √(1-a))`, result `R·c`. -/
noncomputable def calculateDistance (lat1 lng1 lat2 lng2 : ℝ) : ℝ :=
  6371000 *
    (2 * atan2 (Real.sqrt (haversineTerm lat1 lng1 lat2 lng2))
      (Real.sqrt (1 - haversineTerm lat1 lng1 lat2 lng2)))

/-! Concrete sample data over `ℚ` used by the witness theorems. -/

/-- Sample step 0 (ends at geometry index 1). -/
def step0 : RouteStep ℚ := ⟨"Head north on Main Street", "Main Street", 100, 80, 0, (0, 1)⟩

/-- Sample step 1 (ends at geometry index 2). -/
def step1 : RouteStep ℚ := ⟨"Turn left onto Oak Avenue", "Oak Avenue", 120, 95, 1, (1, 2)⟩

/-- Sample step 2 (ends at geometry index 3). -/
def step2 : RouteStep ℚ := ⟨"You have arrived at Oak Avenue", "Oak Avenue", 40, 30, 10, (2, 3)⟩

/-- A three-step sample route's steps. -/
def sampleSteps : List (RouteStep ℚ) := [step0, step1, step2]

/-- A sample route whose geometry has four coordinates. -/
def sampleRoute : Route ℚ :=
  ⟨⟨[(0, 0), (1, 1), (2, 2), (3, 3)]⟩, ⟨[⟨260, 205, sampleSteps⟩]⟩⟩

/-- Sample `RouteData` wrapping `sampleRoute`. -/
def sampleRouteData : RouteData ℚ := ⟨sampleRoute⟩

/-- A `RouteData` with no segments, hence an empty step list. -/
def emptyRouteData : RouteData ℚ := ⟨⟨⟨[]⟩, ⟨[]⟩⟩⟩

/-- A constant distance function (stands in for `calculateDistance` when a
fixed distance reading is wanted in a witness). -/
def dConst (q : ℚ) : ℚ → ℚ → ℚ → ℚ → ℚ := fun _ _ _ _ => q

/-- An in-session navigation state positioned at step `i` of the sample
route. -/
def navAt (i : Nat) : NavigationState ℚ :=
  ⟨true, i, sampleSteps[i]?, sampleSteps[i + 1]?, 3, none, none, none, none, false⟩

/-! Theorems. -/

/-- Claim C4: for every route whose extracted step list is empty,
`startNavigation` only sets the session error to
"No navigation steps available": the state is otherwise unchanged (so an
idle engine stays idle), the route/steps refs are untouched, the spoken
flag is untouched, nothing is announced, and tracking is not started. -/
theorem startNavigation_empty_route {α : Type} (routeData : RouteData α)
    (prev : NavigationState α) (flag : Bool) (routeRef : Option (Route α))
    (stepsRef : List (RouteStep α)) (h : routeSteps routeData = []) :
    startNavigation routeData prev flag routeRef stepsRef =
      ⟨{ prev with error := some "No navigation steps available" },
       routeRef, stepsRef, flag, [], false⟩ := by
  unfold startNavigation
  rw [h]
  rfl

/-- Witness for C4: `startNavigation` on the segmentless route leaves an
idle engine idle, with only the error field set. -/
theorem startNavigation_empty_route_witness :
    startNavigation emptyRouteData (initialState ℚ) false none [] =
      ⟨{ initialState ℚ with error := some "No navigation steps available" },
       none, [], false, [], false⟩ :=
  startNavigation_empty_route emptyRouteData (initialState ℚ) false none [] rfl

/-- Claim C5 counterexample: a position error does NOT reset the session
state to the `IDLE` state that `stopNavigation` produces — `handleError`
on a mid-route session keeps `currentStepIndex`, `currentStep`, etc., so
the resulting state differs from `stopNavigation`'s. -/
theorem handleError_no_reset_counterexample :
    (handleError 2 (navAt 1) false).state ≠ (stopNavigation ℚ).state := by
  decide

/-- Claim C5 (amended): `handleError` sets the session error to the
message mapped from the error code (with fallback "Unknown location
error"), forces `isNavigating := false`, stops the tracker and announces
nothing — but it retains every other session field unchanged; the session
state is NOT discarded or reset to the `IDLE` state. -/
theorem handleError_spec {α : Type} (code : Nat) (prev : NavigationState α)
    (flag : Bool) :
    (handleError code prev flag).state.error =
        some ((errorMessages code).getD "Unknown location error") ∧
    (handleError code prev flag).state.isNavigating = false ∧
    (handleError code prev flag).trackerStopped = true ∧
    (handleError code prev flag).announcements = [] ∧
    (handleError code prev flag).hasSpoken = flag ∧
    (handleError code prev flag).state.currentStepIndex = prev.currentStepIndex ∧
    (handleError code prev flag).state.currentStep = prev.currentStep ∧
    (handleError code prev flag).state.nextStep = prev.nextStep ∧
    (handleError code prev flag).state.totalSteps = prev.totalSteps ∧
    (handleError code prev flag).state.distanceToNextWaypoint =
        prev.distanceToNextWaypoint ∧
    (handleError code prev flag).state.userPosition = prev.userPosition ∧
    (handleError code prev flag).state.accuracy = prev.accuracy :=
  ⟨rfl, rfl, rfl, rfl, rfl, rfl, rfl, rfl, rfl, rfl, rfl, rfl⟩

/-- Claim C6 counterexample: when geolocation is missing, `startTracking`
reports error code 2 — the very code of `POSITION_UNAVAILABLE` — so there
is no `CAPABILITY_UNAVAILABLE` code distinct from the other three, and the
handler maps this case to the `POSITION_UNAVAILABLE` user-facing message
rather than a message of its own. -/
theorem startTracking_code_not_distinct :
    (startTracking false).errorCalls =
        [(POSITION_UNAVAILABLE, "Geolocation not supported")] ∧
    errorMessages POSITION_UNAVAILABLE =
        some "Location unavailable. Please check your device settings." :=
  ⟨rfl, rfl⟩

/-- Claim C6 (amended): if the platform offers no geolocation capability,
`startTracking` synchronously invokes `onError` exactly once, with error
code 2 (the same code as `POSITION_UNAVAILABLE`, not a distinct
`CAPABILITY_UNAVAILABLE` code) and message "Geolocation not supported",
and performs no further action (no subscription is created); the error
handler consequently surfaces the `POSITION_UNAVAILABLE` user-facing
message.  With the capability present, no error is raised and the
subscription is created. -/
theorem startTracking_no_capability_spec :
    (startTracking false).errorCalls = [(2, "Geolocation not supported")] ∧
    (startTracking false).watchStarted = false ∧
    (∀ (α : Type) (prev : NavigationState α) (flag : Bool),
      (handleError 2 prev flag).state.error =
        some "Location unavailable. Please check your device settings.") ∧
    (startTracking true).errorCalls = [] ∧
    (startTracking true).watchStarted = true :=
  ⟨rfl, rfl, fun _ _ _ => rfl, rfl, rfl⟩

/-- Claim C7: once the session has ended (both `stopNavigation` and the
arrival path leave `isNavigating = false`), a late-arriving position fix
is a pure no-op: the state is returned unchanged, the spoken flag is
unchanged, `speak` is not invoked, and the tracker is not touched. -/
theorem fix_after_teardown {α : Type} [LinearOrderedField α] [FloorRing α]
    (d : α → α → α → α → α) (route : Option (Route α))
    (steps : List (RouteStep α)) (lat lng accuracy : α)
    (prev : NavigationState α) (flag : Bool) :
    (stopNavigation α).state.isNavigating = false ∧
    (prev.isNavigating = false →
      handlePositionUpdate d route steps lat lng accuracy prev flag =
        ⟨prev, flag, [], false⟩) := by
  refine ⟨rfl, fun h => ?_⟩
  unfold handlePositionUpdate
  rw [h]
  rfl

/-- Witness for C7: a fix delivered against the state produced by
`stopNavigation` mutates nothing and announces nothing. -/
theorem fix_after_teardown_witness :
    handlePositionUpdate (dConst 5) (some sampleRoute) sampleSteps 0 0 1
        (stopNavigation ℚ).state true =
      ⟨(stopNavigation ℚ).state, true, [], false⟩ :=
  (fix_after_teardown (dConst 5) (some sampleRoute) sampleSteps 0 0 1
    (stopNavigation ℚ).state true).2 rfl

/-- Claim C2: a fix within the 10 m arrival radius of the active waypoint
while `currentStepIndex` is the last step index announces
"You have arrived at your destination", stops the tracker, and resets the
session to the initial `IDLE` state (every field back to `initialState`). -/
theorem arrival_resets_to_idle {α : Type} [LinearOrderedField α] [FloorRing α]
    (d : α → α → α → α → α) (route : Option (Route α))
    (steps : List (RouteStep α)) (lat lng accuracy : α)
    (prev : NavigationState α) (flag : Bool) (w : α × α)
    (hnav : prev.isNavigating = true)
    (hw : getWaypointCoordinates route steps prev.currentStepIndex = some w)
    (hlast : prev.currentStepIndex = steps.length - 1)
    (hdist : d lat lng w.1 w.2 < ARRIVAL_DISTANCE_METERS α) :
    handlePositionUpdate d route steps lat lng accuracy prev flag =
      ⟨initialState α, flag, ["You have arrived at your destination"], true⟩ := by
  unfold handlePositionUpdate
  rw [hnav, hw]
  simp only [Bool.true_eq_false, if_false]
  rw [if_pos hdist, if_neg (by rw [hlast]; exact lt_irrefl _)]

/-- Witness for C2: an 5 m fix at the last sample step arrives, stops the
tracker and resets to `initialState`. -/
theorem arrival_resets_to_idle_witness :
    handlePositionUpdate (dConst 5) (some sampleRoute) sampleSteps 0 0 1
        (navAt 2) true =
      ⟨initialState ℚ, true, ["You have arrived at your destination"], true⟩ :=
  arrival_resets_to_idle (dConst 5) (some sampleRoute) sampleSteps 0 0 1
    (navAt 2) true (3, 3) rfl rfl rfl (by decide)

/-- Claim C3: a fix with distance in the band `[10 m, 30 m)` of the active
waypoint while the spoken flag is clear speaks exactly the current step's
instruction once and sets the flag (leaving the step index unchanged); a
later fix in the same band with the flag already set speaks nothing and
keeps the flag set. -/
theorem trigger_announces_once {α : Type} [LinearOrderedField α] [FloorRing α]
    (d : α → α → α → α → α) (route : Option (Route α))
    (steps : List (RouteStep α)) (lat lng accuracy : α)
    (prev : NavigationState α) (w : α × α) (st : RouteStep α)
    (hnav : prev.isNavigating = true)
    (hw : getWaypointCoordinates route steps prev.currentStepIndex = some w)
    (hst : steps[prev.currentStepIndex]? = some st)
    (hlo : ARRIVAL_DISTANCE_METERS α ≤ d lat lng w.1 w.2)
    (hhi : d lat lng w.1 w.2 < TRIGGER_DISTANCE_METERS α) :
    ((handlePositionUpdate d route steps lat lng accuracy prev false).announcements
        = [st.instruction] ∧
     (handlePositionUpdate d route steps lat lng accuracy prev false).hasSpoken
        = true ∧
     (handlePositionUpdate d route steps lat lng accuracy prev false).state.currentStepIndex
        = prev.currentStepIndex) ∧
    ((handlePositionUpdate d route steps lat lng accuracy prev true).announcements
        = [] ∧
     (handlePositionUpdate d route steps lat lng accuracy prev true).hasSpoken
        = true ∧
     (handlePositionUpdate d route steps lat lng accuracy prev true).state.currentStepIndex
        = prev.currentStepIndex) := by
  unfold handlePositionUpdate finishFix
  rw [hnav, hw]
  simp only [Bool.true_eq_false, if_false]
  rw [if_neg (not_lt.mpr hlo), if_neg (not_lt.mpr hlo)]
  simp [hst, hhi]

/-- Witness for C3: a 20 m fix at sample step 0 announces its instruction
once with the flag clear, and announces nothing with the flag set. -/
theorem trigger_announces_once_witness :
    ((handlePositionUpdate (dConst 20) (some sampleRoute) sampleSteps 0 0 1
        (navAt 0) false).announcements = [step0.instruction] ∧
     (handlePositionUpdate (dConst 20) (some sampleRoute) sampleSteps 0 0 1
        (navAt 0) false).hasSpoken = true ∧
     (handlePositionUpdate (dConst 20) (some sampleRoute) sampleSteps 0 0 1
        (navAt 0) false).state.currentStepIndex = (navAt 0).currentStepIndex) ∧
    ((handlePositionUpdate (dConst 20) (some sampleRoute) sampleSteps 0 0 1
        (navAt 0) true).announcements = [] ∧
     (handlePositionUpdate (dConst 20) (some sampleRoute) sampleSteps 0 0 1
        (navAt 0) true).hasSpoken = true ∧
     (handlePositionUpdate (dConst 20) (some sampleRoute) sampleSteps 0 0 1
        (navAt 0) true).state.currentStepIndex = (navAt 0).currentStepIndex) :=
  trigger_announces_once (dConst 20) (some sampleRoute) sampleSteps 0 0 1
    (navAt 0) (1, 1) step0 rfl rfl rfl (by decide) (by decide)

/-- Claim C8: `skipToNextStep` at (or beyond) the last step index is a
strict no-op — state, flag unchanged, nothing announced; otherwise it
advances `currentStepIndex` by exactly one, immediately announces the new
step's instruction (independent of any distance), and the spoken flag —
reset and then set again by that announcement — ends up set. -/
theorem skipToNextStep_spec {α : Type} (steps : List (RouteStep α))
    (prev : NavigationState α) (flag : Bool) :
    (steps.length - 1 ≤ prev.currentStepIndex →
      skipToNextStep steps prev flag = ⟨prev, flag, [], false⟩) ∧
    (∀ st : RouteStep α, prev.currentStepIndex < steps.length - 1 →
      steps[prev.currentStepIndex + 1]? = some st →
      (skipToNextStep steps prev flag).state.currentStepIndex =
          prev.currentStepIndex + 1 ∧
      (skipToNextStep steps prev flag).announcements = [st.instruction] ∧
      (skipToNextStep steps prev flag).hasSpoken = true) := by
  constructor
  · intro h
    unfold skipToNextStep
    rw [if_pos h]
  · intro st h hst
    unfold skipToNextStep
    rw [if_neg (not_le.mpr h)]
    simp [hst]

/-- Witness for C8: skipping at the last sample step changes nothing and
announces nothing; skipping at step 0 advances to step 1 and announces
step 1's instruction immediately. -/
theorem skipToNextStep_spec_witness :
    skipToNextStep sampleSteps (navAt 2) true = ⟨navAt 2, true, [], false⟩ ∧
    ((skipToNextStep sampleSteps (navAt 0) false).state.currentStepIndex = 1 ∧
     (skipToNextStep sampleSteps (navAt 0) false).announcements =
        [step1.instruction] ∧
     (skipToNextStep sampleSteps (navAt 0) false).hasSpoken = true) :=
  ⟨(skipToNextStep_spec sampleSteps (navAt 2) true).1 (by decide),
   (skipToNextStep_spec sampleSteps (navAt 0) false).2 step1 (by decide) rfl⟩

/-- Claim C10: a successful skip (not at the last step) updates only
`currentStepIndex`, `currentStep` and `nextStep` (plus the service's
spoken flag); `distanceToNextWaypoint`, `userPosition`, `accuracy` — as
well as `error`, `totalSteps`, `isNavigating` and `isSpeaking` — are left
unchanged, so the exposed distance still refers to the previous step's
waypoint until the next fix. -/
theorem skipToNextStep_frame {α : Type} (steps : List (RouteStep α))
    (prev : NavigationState α) (flag : Bool)
    (h : prev.currentStepIndex < steps.length - 1) :
    (skipToNextStep steps prev flag).state.distanceToNextWaypoint =
        prev.distanceToNextWaypoint ∧
    (skipToNextStep steps prev flag).state.userPosition = prev.userPosition ∧
    (skipToNextStep steps prev flag).state.accuracy = prev.accuracy ∧
    (skipToNextStep steps prev flag).state.error = prev.error ∧
    (skipToNextStep steps prev flag).state.totalSteps = prev.totalSteps ∧
    (skipToNextStep steps prev flag).state.isNavigating = prev.isNavigating ∧
    (skipToNextStep steps prev flag).state.isSpeaking = prev.isSpeaking ∧
    (skipToNextStep steps prev flag).state.currentStepIndex =
        prev.currentStepIndex + 1 ∧
    (skipToNextStep steps prev flag).state.currentStep =
        steps[prev.currentStepIndex + 1]? ∧
    (skipToNextStep steps prev flag).state.nextStep =
        steps[prev.currentStepIndex + 2]? := by
  unfold skipToNextStep
  rw [if_neg (not_le.mpr h)]
  exact ⟨rfl, rfl, rfl, rfl, rfl, rfl, rfl, rfl, rfl, rfl⟩

/-- Witness for C10: skipping from sample step 0 leaves distance, position
and accuracy untouched and moves the step pointers forward. -/
theorem skipToNextStep_frame_witness :
    (skipToNextStep sampleSteps (navAt 0) true).state.distanceToNextWaypoint =
        (navAt 0).distanceToNextWaypoint ∧
    (skipToNextStep sampleSteps (navAt 0) true).state.userPosition =
        (navAt 0).userPosition ∧
    (skipToNextStep sampleSteps (navAt 0) true).state.accuracy =
        (navAt 0).accuracy :=
  ⟨(skipToNextStep_frame sampleSteps (navAt 0) true (by decide)).1,
   (skipToNextStep_frame sampleSteps (navAt 0) true (by decide)).2.1,
   (skipToNextStep_frame sampleSteps (navAt 0) true (by decide)).2.2.1⟩

/-- A position fix keeps `currentStepIndex` within `[0, N-1]`. -/
theorem handlePositionUpdate_idx_bound {α : Type} [LinearOrderedField α]
    [FloorRing α] (d : α → α → α → α → α) (route : Option (Route α))
    (steps : List (RouteStep α)) (lat lng accuracy : α)
    (prev : NavigationState α) (flag : Bool)
    (h : prev.currentStepIndex ≤ steps.length - 1) :
    (handlePositionUpdate d route steps lat lng accuracy prev flag).state.currentStepIndex
      ≤ steps.length - 1 := by
  unfold handlePositionUpdate
  dsimp only
  split
  · exact h
  · split
    · exact h
    · split
      · split
        · rename_i hlt
          exact hlt
        · exact Nat.zero_le _
      · split
        · exact h
        · exact h

/-- If a position fix leaves the session active, the session was active
before and `currentStepIndex` did not decrease. -/
theorem handlePositionUpdate_mono {α : Type} [LinearOrderedField α]
    [FloorRing α] (d : α → α → α → α → α) (route : Option (Route α))
    (steps : List (RouteStep α)) (lat lng accuracy : α)
    (prev : NavigationState α) (flag : Bool) :
    (handlePositionUpdate d route steps lat lng accuracy prev flag).state.isNavigating = true →
      prev.isNavigating = true ∧
      prev.currentStepIndex ≤
        (handlePositionUpdate d route steps lat lng accuracy prev flag).state.currentStepIndex := by
  unfold handlePositionUpdate
  dsimp only
  split
  · intro hh; exact ⟨hh, le_rfl⟩
  · split
    · intro hh; exact ⟨hh, le_rfl⟩
    · split
      · split
        · intro hh; exact ⟨hh, Nat.le_succ _⟩
        · intro hh; simp [initialState] at hh
      · split
        · intro hh; exact ⟨hh, le_rfl⟩
        · intro hh; exact ⟨hh, le_rfl⟩

/-- A skip keeps `currentStepIndex` within `[0, N-1]`. -/
theorem skipToNextStep_idx_bound {α : Type} (steps : List (RouteStep α))
    (prev : NavigationState α) (flag : Bool)
    (h : prev.currentStepIndex ≤ steps.length - 1) :
    (skipToNextStep steps prev flag).state.currentStepIndex ≤ steps.length - 1 := by
  unfold skipToNextStep
  split
  · exact h
  · rename_i hguard
    exact lt_of_not_le hguard

/-- A skip never deactivates the session and never decreases the index. -/
theorem skipToNextStep_mono {α : Type} (steps : List (RouteStep α))
    (prev : NavigationState α) (flag : Bool) :
    (skipToNextStep steps prev flag).state.isNavigating = true →
      prev.isNavigating = true ∧
      prev.currentStepIndex ≤ (skipToNextStep steps prev flag).state.currentStepIndex := by
  unfold skipToNextStep
  split
  · intro hh; exact ⟨hh, le_rfl⟩
  · intro hh; exact ⟨hh, Nat.le_succ _⟩

/-- One engine callback keeps the index within `[0, N-1]`. -/
theorem runOp_idx_bound {α : Type} [LinearOrderedField α] [FloorRing α]
    (d : α → α → α → α → α) (route : Option (Route α))
    (steps : List (RouteStep α)) (s : NavigationState α × Bool) (op : NavOp α)
    (h : s.1.currentStepIndex ≤ steps.length - 1) :
    (runOp d route steps s op).1.currentStepIndex ≤ steps.length - 1 := by
  cases op with
  | fix lat lng accuracy =>
    exact handlePositionUpdate_idx_bound d route steps lat lng accuracy s.1 s.2 h
  | skip => exact skipToNextStep_idx_bound steps s.1 s.2 h

/-- One engine callback that leaves the session active did not decrease
the index and started from an active session. -/
theorem runOp_mono {α : Type} [LinearOrderedField α] [FloorRing α]
    (d : α → α → α → α → α) (route : Option (Route α))
    (steps : List (RouteStep α)) (s : NavigationState α × Bool) (op : NavOp α) :
    (runOp d route steps s op).1.isNavigating = true →
      s.1.isNavigating = true ∧
      s.1.currentStepIndex ≤ (runOp d route steps s op).1.currentStepIndex := by
  cases op with
  | fix lat lng accuracy =>
    exact handlePositionUpdate_mono d route steps lat lng accuracy s.1 s.2
  | skip => exact skipToNextStep_mono steps s.1 s.2

/-- Claim C1: for a loaded route with `N ≥ 1` steps, under any sequence of
position fixes and skips, `currentStepIndex` stays within `[0, N-1]`
(upper bound unconditional, lower bound by ℕ), and as long as the session
is still active at the end of the sequence it never decreased. -/
theorem stepIndex_monotone_and_bounded {α : Type} [LinearOrderedField α]
    [FloorRing α] (d : α → α → α → α → α) (route : Option (Route α))
    (steps : List (RouteStep α)) (prev : NavigationState α) (flag : Bool)
    (ops : List (NavOp α)) (hlen : 1 ≤ steps.length)
    (hinv : prev.currentStepIndex ≤ steps.length - 1) :
    (runOps d route steps (prev, flag) ops).1.currentStepIndex ≤ steps.length - 1 ∧
    ((runOps d route steps (prev, flag) ops).1.isNavigating = true →
      prev.isNavigating = true ∧
      prev.currentStepIndex ≤ (runOps d route steps (prev, flag) ops).1.currentStepIndex) := by
  induction ops generalizing prev flag with
  | nil => exact ⟨hinv, fun hh => ⟨hh, le_rfl⟩⟩
  | cons op rest ih =>
    have hb := runOp_idx_bound d route steps (prev, flag) op hinv
    have hm := runOp_mono d route steps (prev, flag) op
    obtain ⟨ihb, ihm⟩ := ih (runOp d route steps (prev, flag) op).1
      (runOp d route steps (prev, flag) op).2 hb
    refine ⟨ihb, fun hfin => ?_⟩
    obtain ⟨h1, h2⟩ := ihm hfin
    obtain ⟨h3, h4⟩ := hm h1
    exact ⟨h3, le_trans h4 h2⟩

/-- Witness for C1: a 20 m fix followed by a skip on the sample route
keeps the index within `[0, 2]` and non-decreasing from step 0. -/
theorem stepIndex_monotone_and_bounded_witness :
    (runOps (dConst 20) (some sampleRoute) sampleSteps (navAt 0, true)
        [NavOp.fix 0 0 1, NavOp.skip]).1.currentStepIndex ≤
      sampleSteps.length - 1 ∧
    ((navAt 0).isNavigating = true ∧
      (navAt 0).currentStepIndex ≤
        (runOps (dConst 20) (some sampleRoute) sampleSteps (navAt 0, true)
          [NavOp.fix 0 0 1, NavOp.skip]).1.currentStepIndex) :=
  ⟨(stepIndex_monotone_and_bounded (dConst 20) (some sampleRoute) sampleSteps
      (navAt 0) true [NavOp.fix 0 0 1, NavOp.skip] (by decide) (by decide)).1,
   (stepIndex_monotone_and_bounded (dConst 20) (some sampleRoute) sampleSteps
      (navAt 0) true [NavOp.fix 0 0 1, NavOp.skip] (by decide) (by decide)).2
     (by decide)⟩

/-- `atan2` on a positive x-coordinate is `arctan (y / x)`. -/
theorem atan2_pos_x (y x : ℝ) (hx : 0 < x) : atan2 y x = Real.arctan (y / x) := by
  unfold atan2
  rw [if_pos hx]

/-- The haversine term is symmetric in its two points. -/
theorem haversineTerm_symm (lat1 lng1 lat2 lng2 : ℝ) :
    haversineTerm lat2 lng2 lat1 lng1 = haversineTerm lat1 lng1 lat2 lng2 := by
  unfold haversineTerm
  have h3 : ∀ x y : ℝ, toRad (x - y) = -toRad (y - x) := by
    intro x y; unfold toRad; ring
  rw [h3 lat1 lat2, h3 lng1 lng2]
  simp only [neg_div, Real.sin_neg]
  ring

/-- The haversine term of a point with itself is zero. -/
theorem haversineTerm_self (lat lng : ℝ) : haversineTerm lat lng lat lng = 0 := by
  unfold haversineTerm toRad
  simp

/-- The haversine term of the two sample meridian points `(0,0)` and
`(1,0)` is `sin²(π/360)`. -/
theorem haversineTerm_one_degree :
    haversineTerm 0 0 1 0 = Real.sin (Real.pi / 360) * Real.sin (Real.pi / 360) := by
  unfold haversineTerm toRad
  have e0 : ((0 : ℝ) - 0) * (Real.pi / 180) / 2 = 0 := by ring
  have e1 : ((1 : ℝ) - 0) * (Real.pi / 180) / 2 = Real.pi / 360 := by ring
  rw [e0, e1, Real.sin_zero]
  ring

/-- `calculateDistance` between the sample meridian points one degree of
latitude apart evaluates exactly to `6371000 · π / 180`. -/
theorem calculateDistance_one_degree :
    calculateDistance 0 0 1 0 = 6371000 * (Real.pi / 180) := by
  have hpi := Real.pi_pos
  set θ : ℝ := Real.pi / 360 with hθ
  have hθpos : 0 < θ := by rw [hθ]; positivity
  have hθlt : θ < Real.pi / 2 := by rw [hθ]; linarith
  have hθltpi : θ < Real.pi := by rw [hθ]; linarith
  have hsin : 0 ≤ Real.sin θ :=
    Real.sin_nonneg_of_nonneg_of_le_pi (le_of_lt hθpos) (le_of_lt hθltpi)
  have hcos : 0 < Real.cos θ :=
    Real.cos_pos_of_mem_Ioo ⟨by linarith, hθlt⟩
  have hsqn : Real.sqrt (Real.sin θ * Real.sin θ) = Real.sin θ :=
    Real.sqrt_mul_self hsin
  have hone : 1 - Real.sin θ * Real.sin θ = Real.cos θ * Real.cos θ := by
    nlinarith [Real.sin_sq_add_cos_sq θ]
  have hsqc : Real.sqrt (1 - Real.sin θ * Real.sin θ) = Real.cos θ := by
    rw [hone]; exact Real.sqrt_mul_self (le_of_lt hcos)
  unfold calculateDistance
  rw [haversineTerm_one_degree, ← hθ, hsqn, hsqc, atan2_pos_x _ _ hcos,
    ← Real.tan_eq_sin_div_cos, Real.arctan_tan (by linarith) hθlt]
  rw [hθ]
  ring

/-- Claim C9: `calculateDistance` (the haversine with Earth radius
6,371,000 m) is symmetric in its two points, is zero on equal points, and
gives a distance within ±0.5% of 111,320 m for two points one degree of
latitude apart on the same meridian. -/
theorem calculateDistance_spec :
    (∀ lat1 lng1 lat2 lng2 : ℝ,
      calculateDistance lat1 lng1 lat2 lng2 = calculateDistance lat2 lng2 lat1 lng1) ∧
    (∀ lat lng : ℝ, calculateDistance lat lng lat lng = 0) ∧
    |calculateDistance 0 0 1 0 - 111320| ≤ (0.5 / 100) * 111320 := by
  refine ⟨?_, ?_, ?_⟩
  · intro lat1 lng1 lat2 lng2
    unfold calculateDistance
    rw [haversineTerm_symm lat1 lng1 lat2 lng2]
  · intro lat lng
    unfold calculateDistance
    rw [haversineTerm_self, Real.sqrt_zero, show (1 : ℝ) - 0 = 1 by norm_num,
      Real.sqrt_one, atan2_pos_x 0 1 one_pos]
    simp
  · rw [calculateDistance_one_degree, abs_le]
    constructor
    · nlinarith [Real.pi_gt_d6]
    · nlinarith [Real.pi_lt_d2]

end Wayfinders
